import Mathlib

/-!
# auth0-golang-api-samples, 01-Authorization-RS256: the `checkJwt` middleware

A shallow embedding of `01-Authorization-RS256/main.go`: the two route handlers
registered in `main`, the middleware `checkJwt` and the scope check `checkScope`.

Modelling choices.

* Go strings are modelled by Lean strings, compared character by character. The
  strings that reach `checkScope` come out of `encoding/json`, hence are valid
  UTF-8, and the pattern `read:messages` is ASCII, so searching bytes and
  searching characters find the same occurrences.
* An `http.ResponseWriter` is a mutable object; it is modelled by the record
  `ResponseWriter` (what a recorder would have seen so far), passed through
  explicitly.
* `fmt.Println` appends a line to `State.stdout`.
* An `http.Handler` may have effects of its own; `State.app` is the part of the
  world the inner handler owns, so that its invocations can be observed.
* A run-time panic is modelled by the `Option String` component of a handler's
  result (`some v` is an unrecovered panic with value `v`).
* `auth0.JWTValidator` lives in a library outside the repository and talks to the
  network: its two methods used here are parameters (`JWTValidator`).
-/

namespace Auth0Sample

/-! ## Library types -/

/-- Go's `error` values that are not nil: only the text of `Error()` is observable. -/
structure GoError where
  Error : String
  deriving DecidableEq, Repr

/-- The values `encoding/json` stores in an `interface{}`. A number keeps its
literal text (the `float64` it decodes to is never looked at by the program). -/
inductive JSONValue where
  | null : JSONValue
  | bool : Bool → JSONValue
  | number : String → JSONValue
  | str : String → JSONValue
  | array : List JSONValue → JSONValue
  | object : List (String × JSONValue) → JSONValue

/-- A `map[string]interface{}`: the claims decoded from a token payload. -/
abbrev Claims := List (String × JSONValue)

/-- The map index expression `claims[key]`: the zero value (the nil interface)
is what a missing key gives, here `none`. -/
def Claims.index (claims : Claims) (key : String) : Option JSONValue :=
  List.lookup key claims

/-- The dynamic type Go reports in an interface-conversion panic. -/
def dynamicType : Option JSONValue → String
  | none => "nil"
  | some .null => "nil"
  | some (.bool _) => "bool"
  | some (.number _) => "float64"
  | some (.str _) => "string"
  | some (.array _) => "[]interface {}"
  | some (.object _) => "map[string]interface {}"

/-- The one-result type assertion `x.(string)`: the string held by `x`, or the
run-time panic `interface conversion` when `x` holds anything else, the nil
interface included. -/
def assertString : Option JSONValue → Except String String
  | some (.str s) => .ok s
  | x => .error ("interface conversion: interface \x7b\x7d is " ++ dynamicType x ++ ", not string")

/-- The result of `strings.HasPrefix` on the characters of two strings. -/
def hasPrefixChars : List Char → List Char → Bool
  | _, [] => true
  | [], _ :: _ => false
  | c :: cs, d :: ds => c == d && hasPrefixChars cs ds

/-- The result of `strings.Contains` on the characters of two strings: `sub`
occurs in `s` at some position. -/
def containsChars : List Char → List Char → Bool
  | [], sub => sub.isEmpty
  | c :: cs, sub => hasPrefixChars (c :: cs) sub || containsChars cs sub

/-- Go's `strings.Contains(s, substr)`: reports whether `substr` is within `s`. -/
def Contains (s substr : String) : Bool :=
  containsChars s.data substr.data

/-- A parsed token, `*jwt.JSONWebToken`; the program only passes it along. -/
structure JSONWebToken where
  raw : String
  deriving DecidableEq, Repr

/-- An `*http.Request`, as far as a handler can read it. -/
structure Request where
  Method : String
  Path : String
  Header : List (String × List String)
  deriving DecidableEq, Repr

/-- The two methods of `*auth0.JWTValidator` that the program calls, for the
validator that `auth0.NewValidator(configuration)` builds from `JWKS_URI`,
`AUTH0_API_AUDIENCE` and `AUTH0_API_ISSUER`.
`ValidateRequest r` is the pair `(token, err)` it returns.
`Claims r token claims` is the content of the out-parameter after the call,
and the error returned. -/
structure JWTValidator where
  ValidateRequest : Request → Option JSONWebToken × Option GoError
  Claims : Request → Option JSONWebToken → Claims → Claims × Option GoError

/-- What has been written to an `http.ResponseWriter` so far. -/
structure ResponseWriter where
  wroteHeader : Bool
  status : Nat
  body : String
  deriving DecidableEq, Repr

/-- A response writer nothing has been written to. -/
def ResponseWriter.fresh : ResponseWriter :=
  ⟨false, 0, ""⟩

/-- The method `WriteHeader`: the first status code sent is the one that counts. -/
def ResponseWriter.WriteHeader (w : ResponseWriter) (statusCode : Nat) : ResponseWriter :=
  if w.wroteHeader then w else { w with wroteHeader := true, status := statusCode }

def StatusOK : Nat := 200

def StatusUnauthorized : Nat := 401

/-- The method `Write`: sends `StatusOK` first when no header was written. -/
def ResponseWriter.Write (w : ResponseWriter) (b : String) : ResponseWriter :=
  let w1 := if w.wroteHeader then w else w.WriteHeader StatusOK
  { w1 with body := w1.body ++ b }

/-- A lower-case hexadecimal digit. -/
def hexDigit (n : Nat) : Char :=
  if n < 10 then Char.ofNat (48 + n) else Char.ofNat (87 + n)

/-- The four hexadecimal digits after a `\u` escape. -/
def hex4 (n : Nat) : List Char :=
  [hexDigit (n / 4096 % 16), hexDigit (n / 256 % 16), hexDigit (n / 16 % 16), hexDigit (n % 16)]

/-- How `encoding/json` writes one character of a string, with HTML escaping on
(the default of `json.NewEncoder`). -/
def escapeChar (c : Char) : List Char :=
  let n := c.toNat
  if n = 34 ∨ n = 92 then [Char.ofNat 92, c]
  else if n = 10 then [Char.ofNat 92, 'n']
  else if n = 13 then [Char.ofNat 92, 'r']
  else if n = 9 then [Char.ofNat 92, 't']
  else if n < 32 ∨ n = 60 ∨ n = 62 ∨ n = 38 ∨ n = 8232 ∨ n = 8233 then
    [Char.ofNat 92, 'u'] ++ hex4 n
  else [c]

/-- A JSON string literal. -/
def encodeString (s : String) : String :=
  String.mk ([Char.ofNat 34] ++ (s.data.map escapeChar).flatten ++ [Char.ofNat 34])

/-! ## The program -/

/-- The struct `Response`, with its one field tagged `json:"message"`. -/
structure Response where
  Message : String
  deriving DecidableEq, Repr

/-- The bytes `json.NewEncoder(w).Encode(response)` writes for a `Response`: the
object, then a newline. -/
def marshalResponse (response : Response) : String :=
  "\x7b\"message\":" ++ encodeString response.Message ++ "\x7d\n"

/-- The call `json.NewEncoder(w).Encode(response)`: one `Write` of the encoding. -/
def Encode (w : ResponseWriter) (response : Response) : ResponseWriter :=
  w.Write (marshalResponse response)

/-- The world a handler runs in: the response writer of the request being
served, the standard output of the process, and whatever the inner handler
owns. -/
structure State (σ : Type) where
  w : ResponseWriter
  stdout : List String
  app : σ

/-- An `http.Handler`: `ServeHTTP(w, r)` as a transition of the world, with
the value of the panic it ends in, if any. -/
abbrev Handler (σ : Type) := Request → State σ → State σ × Option String

/-- The handler registered for `/api/public` in `main`. -/
def publicHandler {σ : Type} : Handler σ := fun _r st =>
  let response : Response :=
    { Message := "Hello from a public endpoint! You don't need to be authenticated to see this." }
  let w1 := st.w.WriteHeader StatusOK
  ({ st with w := Encode w1 response }, none)

/-- The inner handler of `/api/private` in `main`, the argument of `checkJwt`. -/
def privateHandler {σ : Type} : Handler σ := fun _r st =>
  let response : Response :=
    { Message := "Hello from a private endpoint! You need to be authenticated and have a scope of read:messages to see this." }
  let w1 := st.w.WriteHeader StatusOK
  ({ st with w := Encode w1 response }, none)

/-- The function `checkScope`: the standard output after the call, and the
boolean returned or the value of the panic raised. -/
def checkScope (r : Request) (validator : JWTValidator) (token : Option JSONWebToken)
    (stdout : List String) : List String × Except String Bool :=
  match validator.Claims r token [] with
  | (_, some err) => (stdout ++ [err.Error], .ok false)
  | (claims, none) =>
    match assertString (claims.index "scope") with
    | .error v => (stdout, .error v)
    | .ok s =>
      if Contains s "read:messages" then (stdout, .ok true)
      else (stdout, .ok false)

/-- The function `checkJwt`: the handler it returns around `h`. -/
def checkJwt {σ : Type} (validator : JWTValidator) (h : Handler σ) : Handler σ := fun r st =>
  match validator.ValidateRequest r with
  | (_, some _) =>
    let out := st.stdout ++ ["Token is not valid or missing token"]
    let response : Response := { Message := "Missing or invalid token." }
    let w1 := st.w.WriteHeader StatusUnauthorized
    ({ st with w := Encode w1 response, stdout := out }, none)
  | (token, none) =>
    match checkScope r validator token st.stdout with
    | (out, .error v) => ({ st with stdout := out }, some v)
    | (out, .ok result) =>
      if result = true then h r { st with stdout := out }
      else
        let response : Response := { Message := "You do not have the read:messages scope." }
        let w1 := st.w.WriteHeader StatusUnauthorized
        ({ st with w := Encode w1 response, stdout := out }, none)

/-- The handler registered for `/api/private` in `main`. -/
def privateRoute {σ : Type} (validator : JWTValidator) : Handler σ :=
  checkJwt validator privateHandler

/-! ## The scope claim as the specification reads it -/

/-- Go's `unicode.IsSpace`: the characters `strings.Fields` splits around. -/
def isSpace (c : Char) : Bool :=
  let n := c.toNat
  (9 ≤ n && n ≤ 13) || n == 32 || n == 133 || n == 160 || n == 5760 ||
    (8192 ≤ n && n ≤ 8202) || n == 8232 || n == 8233 || n == 8239 || n == 8287 || n == 12288

/-- One pass over a string from its end: the token that touches the start of the
string (empty when the string starts with a separator) and the tokens after it. -/
def splitAux (sep : Char → Bool) : List Char → List Char × List (List Char)
  | [] => ([], [])
  | c :: cs =>
    let rest := splitAux sep cs
    if sep c then ([], if rest.1 = [] then rest.2 else rest.1 :: rest.2)
    else (c :: rest.1, rest.2)

/-- The maximal separator-free, non-empty pieces of a string, in order. -/
def fieldsChars (sep : Char → Bool) (s : List Char) : List (List Char) :=
  let rest := splitAux sep s
  if rest.1 = [] then rest.2 else rest.1 :: rest.2

/-- The tokens of a scope string: what splitting it on whitespace gives
(`strings.Fields`). -/
def scopeTokens (s : String) : List String :=
  (fieldsChars isSpace s.data).map String.mk

/-- The permission the private route asks for. -/
def requiredPermission : String := "read:messages"

/-- The scope check of the specification: tokenize and compare. -/
def hasPermission (s : String) : Bool :=
  decide (requiredPermission ∈ scopeTokens s)

/-- A handler that counts its invocations in the application state and answers
`StatusOK` with an empty body. -/
def countingHandler : Handler Nat := fun _r st =>
  ({ st with w := st.w.WriteHeader StatusOK, app := st.app + 1 }, none)

/-- A validator that accepts every request and decodes the given claims. -/
def acceptingValidator (claims : Claims) : JWTValidator where
  ValidateRequest := fun _ => (some ⟨"header.payload.signature"⟩, none)
  Claims := fun _ _ _ => (claims, none)

/-- A validator that rejects every request with the given error. -/
def rejectingValidator (err : GoError) : JWTValidator where
  ValidateRequest := fun _ => (none, some err)
  Claims := fun _ _ claims => (claims, some err)

/-- A validator that accepts every request and then fails to decode the claims,
leaving the given content in the out-parameter. -/
def undecodableValidator (claims : Claims) (err : GoError) : JWTValidator where
  ValidateRequest := fun _ => (some ⟨"header.payload.signature"⟩, none)
  Claims := fun _ _ _ => (claims, some err)

/-- A `GET /api/private` request with the given `Authorization` header values. -/
def getPrivate (authorization : List String) : Request :=
  ⟨"GET", "/api/private", [("Authorization", authorization)]⟩

/-- The initial world of a request: nothing written, nothing printed. -/
def State.init {σ : Type} (app : σ) : State σ :=
  ⟨ResponseWriter.fresh, [], app⟩

/-- Claims of a token that validates and carries no `scope` claim. -/
def noScopeClaims : Claims :=
  [("iss", .str "https://tenant.auth0.com/"), ("aud", .str "https://api.example.com"),
    ("exp", .number "1893456000")]

/-- Claims whose `scope` claim is a number. -/
def numberScopeClaims : Claims :=
  [("iss", .str "https://tenant.auth0.com/"), ("scope", .number "7")]

/-- Claims with the given scope string. -/
def scopeClaims (scope : String) : Claims :=
  [("iss", .str "https://tenant.auth0.com/"), ("scope", .str scope)]

/-- A `GET /api/private` request carrying a bearer token. -/
def bearerRequest : Request :=
  getPrivate ["Bearer header.payload.signature"]

/-- The response body of a rejected token. -/
def invalidTokenBody : String :=
  "\x7b\"message\":\"Missing or invalid token.\"\x7d\n"

/-- The response body of a token without the permission. -/
def missingScopeBody : String :=
  "\x7b\"message\":\"You do not have the read:messages scope.\"\x7d\n"

/-- The response body of the public route. -/
def publicBody : String :=
  "\x7b\"message\":\"Hello from a public endpoint! You don't need to be authenticated to see this.\"\x7d\n"

/-- The response body of the private route. -/
def privateBody : String :=
  "\x7b\"message\":\"Hello from a private endpoint! You need to be authenticated and have a scope of read:messages to see this.\"\x7d\n"

/-! ## Substring search and tokens -/

theorem hasPrefixChars_nil (s : List Char) : hasPrefixChars s [] = true := by
  cases s <;> rfl

theorem hasPrefixChars_self (s : List Char) : hasPrefixChars s s = true := by
  induction s with
  | nil => rfl
  | cons c cs ih => simp [hasPrefixChars, ih]

theorem containsChars_self (s : List Char) : containsChars s s = true := by
  cases s with
  | nil => rfl
  | cons c cs => simp [containsChars, hasPrefixChars_self]

/-- A separator-free string starts `s` exactly when it starts the first token of `s`. -/
theorem hasPrefixChars_splitAux (sep : Char → Bool) (s sub : List Char)
    (hsub : ∀ c ∈ sub, sep c = false) :
    hasPrefixChars (splitAux sep s).1 sub = hasPrefixChars s sub := by
  induction s generalizing sub with
  | nil => rfl
  | cons c cs ih =>
    cases sub with
    | nil => simp [hasPrefixChars_nil]
    | cons d ds =>
      by_cases hc : sep c = true
      · have hd : sep d = false := hsub d (by simp)
        have hcd : c ≠ d := by
          rintro rfl
          simp [hd] at hc
        simp [splitAux, hc, hasPrefixChars, hcd]
      · have hds : ∀ x ∈ ds, sep x = false := fun x hx => hsub x (by simp [hx])
        simp [splitAux, hc, hasPrefixChars, ih ds hds]

/-- An occurrence of a separator-free, non-empty string lies inside one token. -/
theorem containsChars_splitAux (sep : Char → Bool) (s sub : List Char)
    (hsub : ∀ c ∈ sub, sep c = false) (hne : sub ≠ []) :
    containsChars s sub =
      (containsChars (splitAux sep s).1 sub ||
        (splitAux sep s).2.any (fun t => containsChars t sub)) := by
  induction s with
  | nil => simp [splitAux]
  | cons c cs ih =>
    obtain ⟨d, ds, rfl⟩ := List.exists_cons_of_ne_nil hne
    by_cases hc : sep c = true
    · have hd : sep d = false := hsub d (by simp)
      have hcd : c ≠ d := by
        rintro rfl
        simp [hd] at hc
      by_cases hcur : (splitAux sep cs).1 = []
      · simp [splitAux, hc, containsChars, hasPrefixChars, hcd, ih, hcur]
      · simp [splitAux, hc, containsChars, hasPrefixChars, hcd, ih, hcur]
    · have hp := hasPrefixChars_splitAux sep (c :: cs) (d :: ds) hsub
      simp only [splitAux, hc] at hp
      simp only [splitAux, hc, containsChars, ih]
      simp only [Bool.false_eq_true, if_false] at hp ⊢
      rw [hp, Bool.or_assoc]

theorem containsChars_fieldsChars (sep : Char → Bool) (s sub : List Char)
    (hsub : ∀ c ∈ sub, sep c = false) (hne : sub ≠ []) :
    containsChars s sub = (fieldsChars sep s).any (fun t => containsChars t sub) := by
  rw [containsChars_splitAux sep s sub hsub hne]
  unfold fieldsChars
  by_cases hcur : (splitAux sep s).1 = []
  · obtain ⟨d, ds, rfl⟩ := List.exists_cons_of_ne_nil hne
    simp [hcur, containsChars]
  · simp [hcur]

theorem requiredPermission_no_space : ∀ c ∈ requiredPermission.data, isSpace c = false := by
  decide

theorem requiredPermission_ne_nil : requiredPermission.data ≠ [] := by
  decide

/-- What the substring search of the program decides, in terms of tokens: some
whitespace-delimited token of the scope has `read:messages` inside it. -/
theorem Contains_iff_token (s : String) :
    Contains s "read:messages" = true ↔
      ∃ t ∈ scopeTokens s, Contains t "read:messages" = true := by
  unfold Contains scopeTokens
  rw [show containsChars s.data "read:messages".data = _ from
    containsChars_fieldsChars isSpace s.data _ requiredPermission_no_space
      requiredPermission_ne_nil]
  simp [List.any_eq_true]

theorem Contains_of_mem_scopeTokens (s : String) (h : requiredPermission ∈ scopeTokens s) :
    Contains s "read:messages" = true :=
  (Contains_iff_token s).2 ⟨requiredPermission, h, containsChars_self _⟩

theorem Contains_congr_tokens (s1 s2 : String)
    (h : ∀ t, t ∈ scopeTokens s1 ↔ t ∈ scopeTokens s2) :
    Contains s1 "read:messages" = Contains s2 "read:messages" := by
  rw [Bool.eq_iff_iff, Contains_iff_token s1, Contains_iff_token s2]
  constructor
  · rintro ⟨t, ht, hc⟩
    exact ⟨t, (h t).1 ht, hc⟩
  · rintro ⟨t, ht, hc⟩
    exact ⟨t, (h t).2 ht, hc⟩

/-- The result of `checkScope` when the claims decode and the scope is a string. -/
theorem checkScope_of_string (r : Request) (validator : JWTValidator)
    (token : Option JSONWebToken) (stdout : List String) (claims : Claims) (s : String)
    (hc : validator.Claims r token [] = (claims, none))
    (hs : claims.index "scope" = some (.str s)) :
    checkScope r validator token stdout = (stdout, .ok (Contains s "read:messages")) := by
  unfold checkScope
  rw [hc]
  simp only [hs, assertString]
  cases Contains s "read:messages" <;> simp

/-! ## Response bodies -/

theorem Encode_invalidToken :
    Encode (ResponseWriter.fresh.WriteHeader StatusUnauthorized)
      ⟨"Missing or invalid token."⟩ = ⟨true, 401, invalidTokenBody⟩ := by
  decide

theorem Encode_missingScope :
    Encode (ResponseWriter.fresh.WriteHeader StatusUnauthorized)
      ⟨"You do not have the read:messages scope."⟩ = ⟨true, 401, missingScopeBody⟩ := by
  decide

theorem Encode_public :
    Encode (ResponseWriter.fresh.WriteHeader StatusOK)
      ⟨"Hello from a public endpoint! You don't need to be authenticated to see this."⟩ =
      ⟨true, 200, publicBody⟩ := by
  decide

theorem Encode_private :
    Encode (ResponseWriter.fresh.WriteHeader StatusOK)
      ⟨"Hello from a private endpoint! You need to be authenticated and have a scope of read:messages to see this."⟩ =
      ⟨true, 200, privateBody⟩ := by
  decide

/-! ## The middleware, branch by branch -/

theorem checkJwt_of_invalid {σ : Type} (validator : JWTValidator) (h : Handler σ) (r : Request)
    (st : State σ) (token : Option JSONWebToken) (err : GoError)
    (hv : validator.ValidateRequest r = (token, some err)) :
    checkJwt validator h r st =
      ({ st with
          w := Encode (st.w.WriteHeader StatusUnauthorized) ⟨"Missing or invalid token."⟩,
          stdout := st.stdout ++ ["Token is not valid or missing token"] }, none) := by
  unfold checkJwt
  simp only [hv]

theorem checkJwt_of_scope_false {σ : Type} (validator : JWTValidator) (h : Handler σ)
    (r : Request) (st : State σ) (token : Option JSONWebToken) (out : List String)
    (hv : validator.ValidateRequest r = (token, none))
    (hs : checkScope r validator token st.stdout = (out, .ok false)) :
    checkJwt validator h r st =
      ({ st with
          w := Encode (st.w.WriteHeader StatusUnauthorized)
            ⟨"You do not have the read:messages scope."⟩,
          stdout := out }, none) := by
  unfold checkJwt
  simp [hv, hs]

theorem checkJwt_of_scope_true {σ : Type} (validator : JWTValidator) (h : Handler σ)
    (r : Request) (st : State σ) (token : Option JSONWebToken) (out : List String)
    (hv : validator.ValidateRequest r = (token, none))
    (hs : checkScope r validator token st.stdout = (out, .ok true)) :
    checkJwt validator h r st = h r { st with stdout := out } := by
  unfold checkJwt
  simp [hv, hs]

theorem checkScope_of_claims_error (r : Request) (validator : JWTValidator)
    (token : Option JSONWebToken) (stdout : List String) (claims : Claims) (err : GoError)
    (hc : validator.Claims r token [] = (claims, some err)) :
    checkScope r validator token stdout = (stdout ++ [err.Error], .ok false) := by
  unfold checkScope
  simp only [hc]

/-! ## The claims -/

/-- C1, at a token that validates and has no `scope` claim: `checkJwt` ends in
a panic; the inner handler has not run and nothing was written to the response,
so the request ends in neither of the two outcomes. -/
theorem checkJwt_no_scope_neither_outcome :
    (checkJwt (acceptingValidator noScopeClaims) countingHandler bearerRequest (State.init 0)).2 =
        some "interface conversion: interface \x7b\x7d is nil, not string" ∧
      (checkJwt (acceptingValidator noScopeClaims) countingHandler bearerRequest
        (State.init 0)).1.app = 0 ∧
      (checkJwt (acceptingValidator noScopeClaims) countingHandler bearerRequest
        (State.init 0)).1.w = ResponseWriter.fresh := by
  refine ⟨?_, ?_, ?_⟩ <;> rfl

/-- C2: when `ValidateRequest` returns an error, `checkJwt` does not call the inner
handler and answers status 401 with the body `Missing or invalid token.`, and
the outcome is the same whatever the error (and the validator, request and
inner handler) is. -/
theorem checkJwt_invalid_token_generic {σ : Type} (v1 v2 : JWTValidator) (h1 h2 : Handler σ)
    (r1 r2 : Request) (st : State σ) (t1 t2 : Option JSONWebToken) (e1 e2 : GoError)
    (hv1 : v1.ValidateRequest r1 = (t1, some e1))
    (hv2 : v2.ValidateRequest r2 = (t2, some e2)) :
    checkJwt v1 h1 r1 st =
        ({ st with
            w := Encode (st.w.WriteHeader StatusUnauthorized) ⟨"Missing or invalid token."⟩,
            stdout := st.stdout ++ ["Token is not valid or missing token"] }, none) ∧
      (checkJwt v1 h1 r1 { st with w := ResponseWriter.fresh }).1.w =
        ⟨true, 401, invalidTokenBody⟩ ∧
      checkJwt v1 h1 r1 st = checkJwt v2 h2 r2 st := by
  refine ⟨checkJwt_of_invalid v1 h1 r1 st t1 e1 hv1, ?_, ?_⟩
  · rw [checkJwt_of_invalid v1 h1 r1 _ t1 e1 hv1]
    exact Encode_invalidToken
  · rw [checkJwt_of_invalid v1 h1 r1 st t1 e1 hv1, checkJwt_of_invalid v2 h2 r2 st t2 e2 hv2]

theorem checkJwt_invalid_token_generic_witness :
    (rejectingValidator ⟨"Token not found"⟩).ValidateRequest (getPrivate []) =
        (none, some ⟨"Token not found"⟩) ∧
      (rejectingValidator ⟨"square/go-jose: error in cryptographic primitive"⟩).ValidateRequest
          bearerRequest =
        (none, some ⟨"square/go-jose: error in cryptographic primitive"⟩) ∧
      (checkJwt (rejectingValidator ⟨"Token not found"⟩) countingHandler (getPrivate [])
          (State.init 0)).1.w = ⟨true, 401, invalidTokenBody⟩ ∧
      checkJwt (rejectingValidator ⟨"Token not found"⟩) countingHandler (getPrivate [])
          (State.init 0) =
        checkJwt (rejectingValidator ⟨"square/go-jose: error in cryptographic primitive"⟩)
          privateHandler bearerRequest (State.init 0) :=
  ⟨rfl, rfl,
    (checkJwt_invalid_token_generic (rejectingValidator ⟨"Token not found"⟩)
      (rejectingValidator ⟨"square/go-jose: error in cryptographic primitive"⟩)
      countingHandler privateHandler (getPrivate []) bearerRequest (State.init 0) none none
      ⟨"Token not found"⟩ ⟨"square/go-jose: error in cryptographic primitive"⟩ rfl rfl).2.1,
    (checkJwt_invalid_token_generic (rejectingValidator ⟨"Token not found"⟩)
      (rejectingValidator ⟨"square/go-jose: error in cryptographic primitive"⟩)
      countingHandler privateHandler (getPrivate []) bearerRequest (State.init 0) none none
      ⟨"Token not found"⟩ ⟨"square/go-jose: error in cryptographic primitive"⟩ rfl rfl).2.2⟩

/-- C3, amended: when the token validates, `validator.Claims` returns no error
and the scope string has `read:messages` among its whitespace-delimited tokens,
`checkJwt h` is `h` run on the same request and the same world (response writer
included), so the response is the one `h` produces; around the private handler
the response is status 200 with the private message. -/
theorem checkJwt_authorized_passes_through {σ : Type} (validator : JWTValidator)
    (h : Handler σ) (r : Request) (st : State σ) (token : Option JSONWebToken)
    (claims : Claims) (s : String)
    (hv : validator.ValidateRequest r = (token, none))
    (hc : validator.Claims r token [] = (claims, none))
    (hs : claims.index "scope" = some (.str s))
    (hp : requiredPermission ∈ scopeTokens s) :
    checkJwt validator h r st = h r st ∧
      privateRoute validator r st =
        ({ st with
            w := Encode (st.w.WriteHeader StatusOK)
              ⟨"Hello from a private endpoint! You need to be authenticated and have a scope of read:messages to see this."⟩ },
          none) ∧
      (privateRoute validator r { st with w := ResponseWriter.fresh }).1.w =
        ⟨true, 200, privateBody⟩ := by
  have hscope : ∀ out, checkScope r validator token out = (out, .ok true) := by
    intro out
    rw [checkScope_of_string r validator token out claims s hc hs,
      Contains_of_mem_scopeTokens s hp]
  have hpass : ∀ (g : Handler σ) (st1 : State σ), checkJwt validator g r st1 = g r st1 :=
    fun g st1 => checkJwt_of_scope_true validator g r st1 token st1.stdout hv (hscope _)
  refine ⟨hpass h st, ?_, ?_⟩
  · unfold privateRoute
    rw [hpass]
    rfl
  · unfold privateRoute
    rw [hpass]
    exact Encode_private

theorem checkJwt_authorized_passes_through_witness :
    (acceptingValidator (scopeClaims "openid  read:messages")).ValidateRequest bearerRequest =
        (some ⟨"header.payload.signature"⟩, none) ∧
      requiredPermission ∈ scopeTokens "openid  read:messages" ∧
      checkJwt (acceptingValidator (scopeClaims "openid  read:messages")) countingHandler
          bearerRequest (State.init 0) =
        countingHandler bearerRequest (State.init 0) ∧
      (privateRoute (acceptingValidator (scopeClaims "openid  read:messages")) bearerRequest
          (State.init 0)).1.w = ⟨true, 200, privateBody⟩ :=
  ⟨rfl, by decide,
    (checkJwt_authorized_passes_through (acceptingValidator (scopeClaims "openid  read:messages"))
      countingHandler bearerRequest (State.init 0) (some ⟨"header.payload.signature"⟩)
      (scopeClaims "openid  read:messages") "openid  read:messages" rfl rfl rfl
      (by decide)).1,
    (checkJwt_authorized_passes_through (acceptingValidator (scopeClaims "openid  read:messages"))
      privateHandler bearerRequest (State.init 0) (some ⟨"header.payload.signature"⟩)
      (scopeClaims "openid  read:messages") "openid  read:messages" rfl rfl rfl
      (by decide)).2.2⟩

/-- C3 as stated fails: a token that validates and carries the scope
`read:messages`, for which `validator.Claims` returns an error. `checkScope`
returns false on the error, so `checkJwt` does not invoke the inner handler (its
counter stays 0) and answers status 401 with the permission message; the
outcome is not the one the inner handler produces, and the private route does
not answer 200. -/
theorem checkJwt_claims_error_blocks_valid_scope :
    (undecodableValidator (scopeClaims "read:messages")
        ⟨"json: cannot unmarshal number 1e400 into Go value of type float64"⟩).ValidateRequest
        bearerRequest = (some ⟨"header.payload.signature"⟩, none) ∧
      (scopeClaims "read:messages").index "scope" = some (.str "read:messages") ∧
      requiredPermission ∈ scopeTokens "read:messages" ∧
      (checkJwt (undecodableValidator (scopeClaims "read:messages")
          ⟨"json: cannot unmarshal number 1e400 into Go value of type float64"⟩)
        countingHandler bearerRequest (State.init 0)).1.app = 0 ∧
      (countingHandler bearerRequest (State.init 0)).1.app = 1 ∧
      checkJwt (undecodableValidator (scopeClaims "read:messages")
          ⟨"json: cannot unmarshal number 1e400 into Go value of type float64"⟩)
        countingHandler bearerRequest (State.init 0) ≠
        countingHandler bearerRequest (State.init 0) ∧
      (privateRoute (undecodableValidator (scopeClaims "read:messages")
          ⟨"json: cannot unmarshal number 1e400 into Go value of type float64"⟩)
        bearerRequest (State.init ())).1.w = ⟨true, 401, missingScopeBody⟩ := by
  refine ⟨rfl, rfl, by decide, rfl, rfl, ?_, ?_⟩
  · intro heq
    have happ := congrArg (fun res => res.1.app) heq
    exact absurd happ (by decide)
  · unfold privateRoute
    rw [checkJwt_of_scope_false _ privateHandler bearerRequest (State.init ())
      (some ⟨"header.payload.signature"⟩) _ rfl
      (checkScope_of_claims_error bearerRequest _ _ _ (scopeClaims "read:messages") _ rfl)]
    exact Encode_missingScope

/-- C4, at the scope string `read:messages-archive`: `read:messages` is not one
of its whitespace-delimited tokens, and `checkScope` returns true, because it
searches the scope string for the substring. -/
theorem checkScope_true_on_longer_permission :
    requiredPermission ∉ scopeTokens "read:messages-archive" ∧
      (checkScope bearerRequest (acceptingValidator (scopeClaims "read:messages-archive"))
        (some ⟨"header.payload.signature"⟩) []).2 = .ok true := by
  refine ⟨by decide, ?_⟩
  rw [checkScope_of_string bearerRequest _ _ [] (scopeClaims "read:messages-archive")
    "read:messages-archive" rfl rfl]
  rfl

/-- C5, at claims without a `scope` claim and at claims whose `scope` is a
number: `checkScope` does not return; the type assertion panics. -/
theorem checkScope_panics_without_string_scope :
    (checkScope bearerRequest (acceptingValidator noScopeClaims)
        (some ⟨"header.payload.signature"⟩) []).2 =
        .error "interface conversion: interface \x7b\x7d is nil, not string" ∧
      (checkScope bearerRequest (acceptingValidator numberScopeClaims)
        (some ⟨"header.payload.signature"⟩) []).2 =
        .error "interface conversion: interface \x7b\x7d is float64, not string" := by
  constructor <;> rfl

/-- C6, at a token that validates with scope `unread:messages`: the scope has
no token `read:messages`, and the private route answers status 200 with the
private message. -/
theorem privateRoute_serves_unread_messages :
    requiredPermission ∉ scopeTokens "unread:messages" ∧
      (privateRoute (acceptingValidator (scopeClaims "unread:messages")) bearerRequest
        (State.init ())).1.w = ⟨true, 200, privateBody⟩ := by
  refine ⟨by decide, ?_⟩
  have hs : checkScope bearerRequest (acceptingValidator (scopeClaims "unread:messages"))
      (some ⟨"header.payload.signature"⟩) [] = ([], .ok true) := by
    rw [checkScope_of_string bearerRequest _ _ [] (scopeClaims "unread:messages")
      "unread:messages" rfl rfl]
    rfl
  unfold privateRoute
  rw [checkJwt_of_scope_true _ privateHandler bearerRequest (State.init ())
    (some ⟨"header.payload.signature"⟩) [] rfl hs]
  exact Encode_private

/-- C7: when validation succeeds and `checkScope` returns false, `checkJwt` does not
call the inner handler and answers status 401 with the body
`You do not have the read:messages scope.`; the message contains the name of
the permission and differs from `Missing or invalid token.`. -/
theorem checkJwt_missing_scope_message {σ : Type} (validator : JWTValidator) (h : Handler σ)
    (r : Request) (st : State σ) (token : Option JSONWebToken)
    (hv : validator.ValidateRequest r = (token, none))
    (hs : (checkScope r validator token st.stdout).2 = .ok false) :
    checkJwt validator h r st =
        ({ st with
            w := Encode (st.w.WriteHeader StatusUnauthorized)
              ⟨"You do not have the read:messages scope."⟩,
            stdout := (checkScope r validator token st.stdout).1 }, none) ∧
      (checkJwt validator h r { st with w := ResponseWriter.fresh }).1.w =
        ⟨true, 401, missingScopeBody⟩ ∧
      Contains "You do not have the read:messages scope." requiredPermission = true ∧
      "You do not have the read:messages scope." ≠ "Missing or invalid token." ∧
      missingScopeBody ≠ invalidTokenBody := by
  have hfalse : checkScope r validator token st.stdout =
      ((checkScope r validator token st.stdout).1, .ok false) := by
    rw [← hs]
  refine ⟨checkJwt_of_scope_false validator h r st token _ hv hfalse, ?_, by decide, by decide,
    by decide⟩
  rw [checkJwt_of_scope_false validator h r { st with w := ResponseWriter.fresh } token _ hv
    hfalse]
  exact Encode_missingScope

theorem checkJwt_missing_scope_message_witness :
    (acceptingValidator (scopeClaims "openid profile")).ValidateRequest bearerRequest =
        (some ⟨"header.payload.signature"⟩, none) ∧
      (checkScope bearerRequest (acceptingValidator (scopeClaims "openid profile"))
        (some ⟨"header.payload.signature"⟩) []).2 = .ok false ∧
      (checkJwt (acceptingValidator (scopeClaims "openid profile")) countingHandler bearerRequest
        (State.init 0)).1.w = ⟨true, 401, missingScopeBody⟩ :=
  ⟨rfl, rfl,
    (checkJwt_missing_scope_message (acceptingValidator (scopeClaims "openid profile"))
      countingHandler bearerRequest (State.init 0) (some ⟨"header.payload.signature"⟩) rfl
      rfl).2.1⟩

/-- C8: the public handler gives the same outcome for any two requests, and on
a response nothing was written to it answers status 200 with the public
message. -/
theorem publicHandler_ignores_request {σ : Type} (r1 r2 : Request) (st : State σ) :
    publicHandler r1 st = publicHandler r2 st ∧
      (publicHandler r1 { st with w := ResponseWriter.fresh }).1.w = ⟨true, 200, publicBody⟩ ∧
      (publicHandler r1 st).2 = none :=
  ⟨rfl, Encode_public, rfl⟩

/-- C9: two scope strings with the same set of whitespace-delimited tokens get
the same result from `checkScope`. -/
theorem checkScope_congr_token_set (r1 r2 : Request) (v1 v2 : JWTValidator)
    (t1 t2 : Option JSONWebToken) (out1 out2 : List String) (c1 c2 : Claims) (s1 s2 : String)
    (hc1 : v1.Claims r1 t1 [] = (c1, none)) (hc2 : v2.Claims r2 t2 [] = (c2, none))
    (hs1 : c1.index "scope" = some (.str s1)) (hs2 : c2.index "scope" = some (.str s2))
    (htok : ∀ t, t ∈ scopeTokens s1 ↔ t ∈ scopeTokens s2) :
    (checkScope r1 v1 t1 out1).2 = (checkScope r2 v2 t2 out2).2 := by
  rw [checkScope_of_string r1 v1 t1 out1 c1 s1 hc1 hs1,
    checkScope_of_string r2 v2 t2 out2 c2 s2 hc2 hs2, Contains_congr_tokens s1 s2 htok]

theorem checkScope_congr_token_set_witness :
    (∀ t, t ∈ scopeTokens "read:messages \t openid" ↔
        t ∈ scopeTokens " openid read:messages openid") ∧
      (checkScope bearerRequest (acceptingValidator (scopeClaims "read:messages \t openid"))
          none []).2 =
        (checkScope bearerRequest
          (acceptingValidator (scopeClaims " openid read:messages openid")) none []).2 :=
  have htok : ∀ t, t ∈ scopeTokens "read:messages \t openid" ↔
      t ∈ scopeTokens " openid read:messages openid" := by
    intro t
    rw [show scopeTokens "read:messages \t openid" = ["read:messages", "openid"] by decide,
      show scopeTokens " openid read:messages openid" = ["openid", "read:messages", "openid"]
        by decide]
    simp only [List.mem_cons, List.mem_singleton, List.not_mem_nil, or_false]
    tauto
  ⟨htok,
    checkScope_congr_token_set bearerRequest bearerRequest _ _ none none [] []
      (scopeClaims "read:messages \t openid") (scopeClaims " openid read:messages openid")
      "read:messages \t openid" " openid read:messages openid" rfl rfl rfl rfl htok⟩

/-- C10: when the token validates and `validator.Claims` returns an error,
`checkScope` prints the error and returns false whatever the claims map holds
(it is not looked at), and `checkJwt` answers status 401 with the body
`You do not have the read:messages scope.`, not `Missing or invalid token.`. -/
theorem checkJwt_claims_error_scope_message {σ : Type} (validator : JWTValidator)
    (h : Handler σ) (r : Request) (st : State σ) (token : Option JSONWebToken)
    (claims : Claims) (err : GoError)
    (hv : validator.ValidateRequest r = (token, none))
    (hc : validator.Claims r token [] = (claims, some err)) :
    checkScope r validator token st.stdout = (st.stdout ++ [err.Error], .ok false) ∧
      checkJwt validator h r st =
        ({ st with
            w := Encode (st.w.WriteHeader StatusUnauthorized)
              ⟨"You do not have the read:messages scope."⟩,
            stdout := st.stdout ++ [err.Error] }, none) ∧
      (checkJwt validator h r { st with w := ResponseWriter.fresh }).1.w =
        ⟨true, 401, missingScopeBody⟩ ∧
      missingScopeBody ≠ invalidTokenBody := by
  have hscope := fun out => checkScope_of_claims_error r validator token out claims err hc
  refine ⟨hscope _, ?_, ?_, by decide⟩
  · exact checkJwt_of_scope_false validator h r st token _ hv (hscope _)
  · rw [checkJwt_of_scope_false validator h r _ token _ hv (hscope _)]
    exact Encode_missingScope

theorem checkJwt_claims_error_scope_message_witness :
    (undecodableValidator noScopeClaims ⟨"unexpected end of JSON input"⟩).ValidateRequest
        bearerRequest = (some ⟨"header.payload.signature"⟩, none) ∧
      checkScope bearerRequest (undecodableValidator noScopeClaims ⟨"unexpected end of JSON input"⟩)
        (some ⟨"header.payload.signature"⟩) [] = (["unexpected end of JSON input"], .ok false) ∧
      (checkJwt (undecodableValidator noScopeClaims ⟨"unexpected end of JSON input"⟩)
        countingHandler bearerRequest (State.init 0)).1.w = ⟨true, 401, missingScopeBody⟩ :=
  ⟨rfl,
    (checkJwt_claims_error_scope_message
      (undecodableValidator noScopeClaims ⟨"unexpected end of JSON input"⟩) countingHandler
      bearerRequest (State.init 0) (some ⟨"header.payload.signature"⟩) noScopeClaims
      ⟨"unexpected end of JSON input"⟩ rfl rfl).1,
    (checkJwt_claims_error_scope_message
      (undecodableValidator noScopeClaims ⟨"unexpected end of JSON input"⟩) countingHandler
      bearerRequest (State.init 0) (some ⟨"header.payload.signature"⟩) noScopeClaims
      ⟨"unexpected end of JSON input"⟩ rfl rfl).2.2.1⟩

end Auth0Sample
